import Mathlib

/-!
Verification development for the GPU monitoring core of emrysminer
(`cmd/monitorGPU.go`).

The program drives a fixed-period sampling loop over NVML GPU devices:
it resolves the device set from configuration, applies one-time device
configuration (persistence mode, exclusive-process compute mode), and
then, every tick, collects one best-effort snapshot per device until a
cancellation signal is observed.

Shallow embedding notes.  The NVML capability provider (gonvml) is
external to the repository, so its calls are modelled as pre-recorded
fallible results (`Except String α`), one record per device-pass
(`DeviceReads`) and one per device initialization (`InitReads`).  Every
gonvml accessor returns the zero value of its result type alongside a
non-nil error, and the Go code assigns the returned value
unconditionally, so in the embedding a failed dynamic read leaves the
corresponding snapshot field at its zero value (`orZero`).  `log.Printf`
calls are modelled as emitted strings; `panic` as the `fatalStop`
outcome; the deferred `gonvml.Shutdown` as the `shutdownCalled` flag;
`ctx.Done()` as a per-tick observation flag consulted at the post-pass
`select`, exactly where the code consults it.  The otherwise infinite
`for` loop is run on explicit fuel (a bound on the number of ticks).
-/

namespace EmrysMiner

/-- Mirror of the Go struct `GPUSnapshot` (`monitorGPU.go` lines 14-42):
unsigned machine integers become `Nat`, the `int64` timestamp becomes
`Int`, strings stay strings. -/
structure GPUSnapshot where
  TimeStamp : Int
  MinorNumber : Nat
  UUID : String
  Name : String
  Brand : Nat
  PersistenceMode : Nat
  ComputeMode : Nat
  PerformanceState : Nat
  AvgGPUUtilization : Nat
  AvgPowerUsage : Nat
  TotalMemory : Nat
  UsedMemory : Nat
  GrClock : Nat
  SMClock : Nat
  MemClock : Nat
  GrMaxClock : Nat
  SMMaxClock : Nat
  MemMaxClock : Nat
  PcieTxThroughput : Nat
  PcieRxThroughput : Nat
  PcieGeneration : Nat
  PcieWidth : Nat
  PcieMaxGeneration : Nat
  PcieMaxWidth : Nat
  Temperature : Nat
  FanSpeed : Nat
deriving DecidableEq, Repr

/-- Constants from `monitorGPU.go` lines 44-48.  `gpuPeriod` is the tick
period in seconds (`10 * time.Second`). -/
def gpuPeriod : Nat := 10

/-- NVML feature-enabled flag passed to `SetPersistenceMode`. -/
def nvmlFeatureEnabled : Nat := 1

/-- NVML exclusive-process compute mode passed to `SetComputeMode`. -/
def nvmlComputeExclusiveProcess : Nat := 3

/-- Pre-recorded results of every gonvml call one device pass can make
(handle resolution plus the 25 reads of `monitorGPU.go` lines 113-269).
`memoryInfo` is a single call returning the pair (totalMemory,
usedMemory). -/
structure DeviceReads where
  handle : Except String Unit
  minorNumber : Except String Nat
  uuid : Except String String
  name : Except String String
  brand : Except String Nat
  persistenceMode : Except String Nat
  computeMode : Except String Nat
  performanceState : Except String Nat
  avgGPUUtilization : Except String Nat
  avgPowerUsage : Except String Nat
  memoryInfo : Except String (Nat × Nat)
  grClock : Except String Nat
  smClock : Except String Nat
  memClock : Except String Nat
  grMaxClock : Except String Nat
  smMaxClock : Except String Nat
  memMaxClock : Except String Nat
  pcieTxThroughput : Except String Nat
  pcieRxThroughput : Except String Nat
  pcieGeneration : Except String Nat
  pcieWidth : Except String Nat
  pcieMaxGeneration : Except String Nat
  pcieMaxWidth : Except String Nat
  temperature : Except String Nat
  fanSpeed : Except String Nat
deriving Repr

/-- Value of a fallible gonvml read as the Go caller sees it: the read
value on success, the type's zero value on error (gonvml returns the
zero value alongside a non-nil error and the Go code assigns it
unconditionally). -/
def orZero (x : Except String Nat) : Nat :=
  match x with
  | .ok v => v
  | .error _ => 0

/-- Pair version of `orZero`, for the `MemoryInfo` call that yields both
`TotalMemory` and `UsedMemory` (lines 180-185). -/
def orZeroPair (x : Except String (Nat × Nat)) : Nat × Nat :=
  match x with
  | .ok v => v
  | .error _ => (0, 0)

/-- Log lines produced by one fallible read: nothing on success, one
`log.Printf` line on error. -/
def logOf {α : Type} (x : Except String α) (msg : String) : List String :=
  match x with
  | .ok _ => []
  | .error e => [msg ++ e]

/-- Log lines of the eighteen fail-soft dynamic reads of one pass, in
source order (`monitorGPU.go` lines 168-269): one line per failed read,
nothing for successful ones.  The three log messages reading
`PcieGeneration()` for `PcieWidth`, `PcieMaxGeneration` and
`PcieMaxWidth` reproduce the copy-pasted messages at lines 243, 249 and
255 of the source. -/
def dynLogs (r : DeviceReads) : List String :=
  logOf r.avgGPUUtilization "UtilizationRates() error: " ++
  logOf r.avgPowerUsage "PowerUsage() error: " ++
  logOf r.memoryInfo "MemoryInfo() error: " ++
  logOf r.grClock "GrClock() error: " ++
  logOf r.smClock "SMClock() error: " ++
  logOf r.memClock "MemClock() error: " ++
  logOf r.grMaxClock "GrMaxClock() error: " ++
  logOf r.smMaxClock "SMMaxClock() error: " ++
  logOf r.memMaxClock "MemMaxClock() error: " ++
  logOf r.pcieTxThroughput "PcieTxThroughput() error: " ++
  logOf r.pcieRxThroughput "PcieRxThroughput() error: " ++
  logOf r.pcieGeneration "PcieGeneration() error: " ++
  logOf r.pcieWidth "PcieGeneration() error: " ++
  logOf r.pcieMaxGeneration "PcieGeneration() error: " ++
  logOf r.pcieMaxWidth "PcieGeneration() error: " ++
  logOf r.temperature "Temperature() error: " ++
  logOf r.fanSpeed "FanSpeed() error: "

/-- One device pass of the monitor loop body (`monitorGPU.go` lines
110-271) for device index `i` with cycle timestamp `t`: handle
resolution and the seven identity reads short-circuit with `continue`
(no snapshot, one log line); the remaining dynamic reads are
fail-soft, each contributing its value or zero plus a log line.
Returns the emitted snapshot (`none` when the pass was abandoned) and
the log lines. -/
def collectDevice (i : Nat) (t : Int) (r : DeviceReads) :
    Option GPUSnapshot × List String :=
  match r.handle with
  | .error e => (none, ["DeviceHandleByIndex(" ++ toString i ++ ") error: " ++ e])
  | .ok _ =>
  match r.minorNumber with
  | .error e => (none, ["MinorNumber() error: " ++ e])
  | .ok minorNumber =>
  match r.uuid with
  | .error e => (none, ["UUID() error: " ++ e])
  | .ok uuid =>
  match r.name with
  | .error e => (none, ["Name() error: " ++ e])
  | .ok name =>
  match r.brand with
  | .error e => (none, ["Brand() error: " ++ e])
  | .ok brand =>
  match r.persistenceMode with
  | .error e => (none, ["PersistenceMode() error: " ++ e])
  | .ok persistenceMode =>
  match r.computeMode with
  | .error e => (none, ["ComputeMode() error: " ++ e])
  | .ok computeMode =>
  match r.performanceState with
  | .error e => (none, ["PerformanceState() error: " ++ e])
  | .ok performanceState =>
    (some
      { TimeStamp := t
        MinorNumber := minorNumber
        UUID := uuid
        Name := name
        Brand := brand
        PersistenceMode := persistenceMode
        ComputeMode := computeMode
        PerformanceState := performanceState
        AvgGPUUtilization := orZero r.avgGPUUtilization
        AvgPowerUsage := orZero r.avgPowerUsage
        TotalMemory := (orZeroPair r.memoryInfo).1
        UsedMemory := (orZeroPair r.memoryInfo).2
        GrClock := orZero r.grClock
        SMClock := orZero r.smClock
        MemClock := orZero r.memClock
        GrMaxClock := orZero r.grMaxClock
        SMMaxClock := orZero r.smMaxClock
        MemMaxClock := orZero r.memMaxClock
        PcieTxThroughput := orZero r.pcieTxThroughput
        PcieRxThroughput := orZero r.pcieRxThroughput
        PcieGeneration := orZero r.pcieGeneration
        PcieWidth := orZero r.pcieWidth
        PcieMaxGeneration := orZero r.pcieMaxGeneration
        PcieMaxWidth := orZero r.pcieMaxWidth
        Temperature := orZero r.temperature
        FanSpeed := orZero r.fanSpeed },
      dynLogs r)

/-- Decimal value of a digit list, most significant first. -/
def digitsToNat : List Char → Nat → Nat
  | [], acc => acc
  | c :: cs, acc => digitsToNat cs (acc * 10 + (c.toNat - 48))

/-- Go `strconv.ParseUint(s, 10, 64)`: accepts exactly the non-empty
strings of decimal digits (no sign, no underscores at base 10) whose
value fits in 64 bits.  The subsequent Go conversion `uint(u)` is the
identity on 64-bit platforms. -/
def parseUint64 (s : String) : Except String Nat :=
  if s.data.isEmpty then .error "invalid syntax"
  else if s.data.all Char.isDigit then
    if digitsToNat s.data 0 < 2 ^ 64 then .ok (digitsToNat s.data 0)
    else .error "value out of range"
  else .error "invalid syntax"

/-- Explicit-list branch of the selector (`monitorGPU.go` lines 76-86):
parse each entry in order; the first unparsable entry aborts the whole
selection (the Go code panics there), so no partial selection is ever
produced. -/
def parseDevices : List String → Except String (List Nat)
  | [] => .ok []
  | s :: rest =>
    match parseUint64 s with
    | .error e => .error ("Invalid devices entry " ++ s ++ ": " ++ e)
    | .ok u =>
      match parseDevices rest with
      | .error e => .error e
      | .ok us => .ok (u :: us)

/-- Device selector (`monitorGPU.go` lines 64-86): with no configured
list, take indices `0..count-1` from the provider's device count (a
count error is fatal); with a configured list, parse every entry. -/
def selectDevices (devicesStr : List String) (deviceCount : Except String Nat) :
    Except String (List Nat) :=
  if devicesStr.isEmpty then
    match deviceCount with
    | .error e => .error ("Error counting nvidia devices: " ++ e)
    | .ok n => .ok (List.range n)
  else
    parseDevices devicesStr

/-- Pre-recorded results of the gonvml calls device initialization can
make: handle resolution and the two configuration writes, each keyed by
the mode value written. -/
structure InitReads where
  handle : Except String Unit
  setPersistenceMode : Nat → Except String Unit
  setComputeMode : Nat → Except String Unit

/-- One-device initialization (`monitorGPU.go` lines 89-105): resolve
the handle, enable persistence mode, set exclusive-process compute
mode; each failure is fatal. -/
def initDevice (i : Nat) (r : InitReads) : Except String Unit :=
  match r.handle with
  | .error e => .error ("DeviceHandleByIndex(" ++ toString i ++ ") error: " ++ e)
  | .ok _ =>
  match r.setPersistenceMode nvmlFeatureEnabled with
  | .error e => .error ("SetPersistenceMode() error: " ++ e)
  | .ok _ =>
  match r.setComputeMode nvmlComputeExclusiveProcess with
  | .error e => .error ("SetComputeMode() error: " ++ e)
  | .ok _ => .ok ()

/-- Sequential initialization of all selected devices; the first failing
device aborts (the Go code panics, so later devices are not touched). -/
def initDevices (ir : Nat → InitReads) : List Nat → Except String Unit
  | [] => .ok ()
  | i :: rest =>
    match initDevice i (ir i) with
    | .error e => .error e
    | .ok _ => initDevices ir rest

/-- Everything one tick produced: its tick number and, for each selected
device in order, the device index paired with the snapshot the pass
emitted for it (`none` when that device's pass was abandoned on an
identity failure). -/
structure TickRecord where
  tick : Nat
  attempts : List (Nat × Option GPUSnapshot)
deriving DecidableEq, Repr

/-- One full pass over the selected devices within a tick
(`monitorGPU.go` lines 109-272): sequential, in the fixed order of
`devices`, each device getting its own `time.Now` stamp `ts i`. -/
def devicePass (rd : Nat → DeviceReads) (ts : Nat → Int) (devices : List Nat) :
    List (Nat × Option GPUSnapshot) :=
  devices.map fun i => (i, (collectDevice i (ts i) (rd i)).1)

/-- How the sampling loop ended within the given fuel. -/
inductive LoopExit
  | cancelled
  | fuelOut
deriving DecidableEq, Repr

/-- The sampling loop (`monitorGPU.go` lines 108-278) on explicit fuel:
each iteration runs a complete device pass, then the `select` at lines
273-277 either observes cancellation (`obs t = true`: return) or waits
out the tick period and continues.  `rd t i` are the reads of device `i`
during tick `t`; `ts t i` its cycle timestamp. -/
def runLoop (rd : Nat → Nat → DeviceReads) (ts : Nat → Nat → Int)
    (obs : Nat → Bool) (devices : List Nat) :
    Nat → Nat → List TickRecord × LoopExit
  | 0, _ => ([], .fuelOut)
  | fuel + 1, t =>
    let tr : TickRecord := { tick := t, attempts := devicePass (rd t) (ts t) devices }
    if obs t then
      ([tr], .cancelled)
    else
      let rest := runLoop rd ts obs devices fuel (t + 1)
      (tr :: rest.1, rest.2)

/-- How a whole run of `monitorGPU` ended: `fatalStop` models `panic`,
`earlyExit` the plain `return` after a driver-version failure,
`cancelled` the `return` on `ctx.Done()`, `fuelOut` exhaustion of the
loop fuel (the loop would keep running). -/
inductive Outcome
  | fatalStop (msg : String)
  | earlyExit
  | cancelled
  | fuelOut
deriving DecidableEq, Repr

/-- The environment a run of `monitorGPU` executes against: results of
the session/startup calls, the per-device initialization calls, the
per-tick per-device reads, the per-tick cancellation observations, and
the loop fuel. -/
structure World where
  sessionErr : Option String
  driverVersion : Except String String
  devicesStr : List String
  deviceCount : Except String Nat
  initReads : Nat → InitReads
  reads : Nat → Nat → DeviceReads
  tsOf : Nat → Nat → Int
  obs : Nat → Bool
  fuel : Nat

/-- Observable result of a run of `monitorGPU`: how it ended, the ticks
the loop completed, the device set it resolved (`[]` when it never got
that far), whether all devices were configured, and whether the
deferred `gonvml.Shutdown` ran. -/
structure RunResult where
  outcome : Outcome
  ticks : List TickRecord
  selected : List Nat
  configured : Bool
  shutdownCalled : Bool
deriving DecidableEq, Repr

/-- The whole of `monitorGPU` (`monitorGPU.go` lines 50-279): session
init (panic on failure, before the deferred shutdown is registered),
driver-version query (plain return on failure), device selection (panic
on failure), device initialization (panic on failure), then the sampling
loop.  Deferred `gonvml.Shutdown` runs on every exit path after a
successful session init, panics included. -/
def monitorGPU (w : World) : RunResult :=
  match w.sessionErr with
  | some e => ⟨.fatalStop e, [], [], false, false⟩
  | none =>
    match w.driverVersion with
    | .error _ => ⟨.earlyExit, [], [], false, true⟩
    | .ok _ =>
      match selectDevices w.devicesStr w.deviceCount with
      | .error e => ⟨.fatalStop e, [], [], false, true⟩
      | .ok devices =>
        match initDevices w.initReads devices with
        | .error e => ⟨.fatalStop e, [], devices, false, true⟩
        | .ok _ =>
          let res := runLoop w.reads w.tsOf w.obs devices w.fuel 0
          ⟨match res.2 with
            | .cancelled => .cancelled
            | .fuelOut => .fuelOut,
           res.1, devices, true, true⟩

/-- The snapshot records a run emitted, as (tick, device index,
snapshot) triples: one per device per tick whose pass was not
abandoned. -/
def emitted (res : RunResult) : List (Nat × Nat × GPUSnapshot) :=
  (res.ticks.map fun tr =>
    tr.attempts.filterMap fun p =>
      match p.2 with
      | some g => some (tr.tick, p.1, g)
      | none => none).flatten

/-- Idealized timing of the sampling loop, for the cadence analysis:
`tickStamp s0 d t` is the `time.Now().Unix()` value at the start of tick
`t`, when the run starts at time `s0`, the device pass of tick `t` takes
`d t` seconds, and the `time.After(gpuPeriod)` timer of lines 273-277 is
exact (it starts only after the pass and fires `gpuPeriod` seconds
later). -/
def tickStamp (s0 : Int) (d : Nat → Nat) : Nat → Int
  | 0 => s0
  | t + 1 => tickStamp s0 d t + (d t : Int) + (gpuPeriod : Int)

/-- Concrete device-pass fixture in which every gonvml call succeeds. -/
def okReads : DeviceReads where
  handle := .ok ()
  minorNumber := .ok 2
  uuid := .ok "GPU-abc"
  name := .ok "RTX"
  brand := .ok 5
  persistenceMode := .ok 1
  computeMode := .ok 3
  performanceState := .ok 0
  avgGPUUtilization := .ok 55
  avgPowerUsage := .ok 150
  memoryInfo := .ok (8192, 4096)
  grClock := .ok 1500
  smClock := .ok 1480
  memClock := .ok 7000
  grMaxClock := .ok 1800
  smMaxClock := .ok 1780
  memMaxClock := .ok 7100
  pcieTxThroughput := .ok 100
  pcieRxThroughput := .ok 200
  pcieGeneration := .ok 3
  pcieWidth := .ok 16
  pcieMaxGeneration := .ok 3
  pcieMaxWidth := .ok 16
  temperature := .ok 65
  fanSpeed := .ok 40

/-- Fixture: identity reads succeed, the temperature read fails. -/
def tempFailReads : DeviceReads :=
  { okReads with temperature := .error "boom" }

/-- Fixture: identity reads succeed, the graphics-clock read fails. -/
def grFailReads : DeviceReads :=
  { okReads with grClock := .error "boom" }

/-- Concrete initialization fixture in which every gonvml call
succeeds. -/
def okInit : InitReads where
  handle := .ok ()
  setPersistenceMode := fun _ => .ok ()
  setComputeMode := fun _ => .ok ()

/-- Concrete initialization fixture whose compute-mode write fails. -/
def computeModeFailInit : InitReads where
  handle := .ok ()
  setPersistenceMode := fun _ => .ok ()
  setComputeMode := fun _ => .error "boom"

/-- Concrete world in which everything succeeds: one device (index 0),
cancellation observed at the select of tick 1. -/
def okWorld : World where
  sessionErr := none
  driverVersion := .ok "418.67"
  devicesStr := []
  deviceCount := .ok 1
  initReads := fun _ => okInit
  reads := fun _ _ => okReads
  tsOf := fun t _ => (t : Int) * 10
  obs := fun t => t == 1
  fuel := 5

/-- Value a successfully parsed device entry contributes (zero is a
placeholder on the error branch, which the selector never uses: it has
already aborted). -/
def parseVal (s : String) : Nat :=
  match parseUint64 s with
  | .ok n => n
  | .error _ => 0

/-- The snapshot `collectDevice` produces for `okReads` at timestamp
0. -/
def okSnapshot : GPUSnapshot where
  TimeStamp := 0
  MinorNumber := 2
  UUID := "GPU-abc"
  Name := "RTX"
  Brand := 5
  PersistenceMode := 1
  ComputeMode := 3
  PerformanceState := 0
  AvgGPUUtilization := 55
  AvgPowerUsage := 150
  TotalMemory := 8192
  UsedMemory := 4096
  GrClock := 1500
  SMClock := 1480
  MemClock := 7000
  GrMaxClock := 1800
  SMMaxClock := 1780
  MemMaxClock := 7100
  PcieTxThroughput := 100
  PcieRxThroughput := 200
  PcieGeneration := 3
  PcieWidth := 16
  PcieMaxGeneration := 3
  PcieMaxWidth := 16
  Temperature := 65
  FanSpeed := 40

/-- World whose compute-mode configuration write fails on every
device. -/
def initFailWorld : World :=
  { okWorld with initReads := fun _ => computeModeFailInit }

/-- World whose device-count query fails (and no explicit device list
is configured). -/
def countFailWorld : World :=
  { okWorld with deviceCount := .error "boom" }

/-- World whose driver-version query fails. -/
def driverFailWorld : World :=
  { okWorld with driverVersion := .error "boom" }

/-- World with the explicit device list `["0", "2"]`. -/
def goodListWorld : World :=
  { okWorld with devicesStr := ["0", "2"] }

/-- World with an explicit device list containing the unparsable entry
`"abc"`. -/
def badListWorld : World :=
  { okWorld with devicesStr := ["0", "abc"] }

/-- Characterization of a device pass whose handle resolution and seven
identity reads all succeed: the pass emits exactly one snapshot whose
identity fields carry the read values, whose every dynamic field is a
function of that field's own read alone (its value on success, zero on
failure), and whose log lines are exactly those of the failed dynamic
reads. -/
theorem collectDevice_identity_ok (i : Nat) (t : Int) (r : DeviceReads)
    (mn br pm cm ps : Nat) (uu nm : String)
    (h1 : r.handle = .ok ()) (h2 : r.minorNumber = .ok mn) (h3 : r.uuid = .ok uu)
    (h4 : r.name = .ok nm) (h5 : r.brand = .ok br) (h6 : r.persistenceMode = .ok pm)
    (h7 : r.computeMode = .ok cm) (h8 : r.performanceState = .ok ps) :
    collectDevice i t r =
      (some
        { TimeStamp := t
          MinorNumber := mn
          UUID := uu
          Name := nm
          Brand := br
          PersistenceMode := pm
          ComputeMode := cm
          PerformanceState := ps
          AvgGPUUtilization := orZero r.avgGPUUtilization
          AvgPowerUsage := orZero r.avgPowerUsage
          TotalMemory := (orZeroPair r.memoryInfo).1
          UsedMemory := (orZeroPair r.memoryInfo).2
          GrClock := orZero r.grClock
          SMClock := orZero r.smClock
          MemClock := orZero r.memClock
          GrMaxClock := orZero r.grMaxClock
          SMMaxClock := orZero r.smMaxClock
          MemMaxClock := orZero r.memMaxClock
          PcieTxThroughput := orZero r.pcieTxThroughput
          PcieRxThroughput := orZero r.pcieRxThroughput
          PcieGeneration := orZero r.pcieGeneration
          PcieWidth := orZero r.pcieWidth
          PcieMaxGeneration := orZero r.pcieMaxGeneration
          PcieMaxWidth := orZero r.pcieMaxWidth
          Temperature := orZero r.temperature
          FanSpeed := orZero r.fanSpeed },
       dynLogs r) := by
  simp [collectDevice, h1, h2, h3, h4, h5, h6, h7, h8]

/-- C1: in every device pass, if handle resolution or any one of the
seven identity reads (minor number, UUID, name, brand, persistence
mode, compute mode, performance state) fails, the pass produces no
snapshot and exactly the one log line of the failing read — the result
is a constant independent of every later read, so all remaining reads
of the pass are skipped; moreover a tick's pass still covers every
selected device in order (the loop continues with the next device), and
the abandoned device contributes no emitted record for that tick. -/
theorem monitor_identity_failfast (i : Nat) (t : Int) (r : DeviceReads) (e : String) :
    (r.handle = .error e →
      collectDevice i t r =
        (none, ["DeviceHandleByIndex(" ++ toString i ++ ") error: " ++ e])) ∧
    (r.handle = .ok () → r.minorNumber = .error e →
      collectDevice i t r = (none, ["MinorNumber() error: " ++ e])) ∧
    (r.handle = .ok () → (∃ v, r.minorNumber = .ok v) → r.uuid = .error e →
      collectDevice i t r = (none, ["UUID() error: " ++ e])) ∧
    (r.handle = .ok () → (∃ v, r.minorNumber = .ok v) → (∃ v, r.uuid = .ok v) →
      r.name = .error e →
      collectDevice i t r = (none, ["Name() error: " ++ e])) ∧
    (r.handle = .ok () → (∃ v, r.minorNumber = .ok v) → (∃ v, r.uuid = .ok v) →
      (∃ v, r.name = .ok v) → r.brand = .error e →
      collectDevice i t r = (none, ["Brand() error: " ++ e])) ∧
    (r.handle = .ok () → (∃ v, r.minorNumber = .ok v) → (∃ v, r.uuid = .ok v) →
      (∃ v, r.name = .ok v) → (∃ v, r.brand = .ok v) → r.persistenceMode = .error e →
      collectDevice i t r = (none, ["PersistenceMode() error: " ++ e])) ∧
    (r.handle = .ok () → (∃ v, r.minorNumber = .ok v) → (∃ v, r.uuid = .ok v) →
      (∃ v, r.name = .ok v) → (∃ v, r.brand = .ok v) → (∃ v, r.persistenceMode = .ok v) →
      r.computeMode = .error e →
      collectDevice i t r = (none, ["ComputeMode() error: " ++ e])) ∧
    (r.handle = .ok () → (∃ v, r.minorNumber = .ok v) → (∃ v, r.uuid = .ok v) →
      (∃ v, r.name = .ok v) → (∃ v, r.brand = .ok v) → (∃ v, r.persistenceMode = .ok v) →
      (∃ v, r.computeMode = .ok v) → r.performanceState = .error e →
      collectDevice i t r = (none, ["PerformanceState() error: " ++ e])) ∧
    (∀ (rd : Nat → DeviceReads) (ts : Nat → Int) (devices : List Nat),
      (devicePass rd ts devices).map Prod.fst = devices) ∧
    (∀ (rd : Nat → DeviceReads) (ts : Nat → Int) (devices : List Nat) (g : GPUSnapshot),
      (collectDevice i (ts i) (rd i)).1 = none →
      (i, g) ∉ (devicePass rd ts devices).filterMap fun p => p.2.map fun s => (p.1, s)) := by
  refine ⟨?_, ?_, ?_, ?_, ?_, ?_, ?_, ?_, ?_, ?_⟩
  · intro h; simp [collectDevice, h]
  · intro h1 h; simp [collectDevice, h1, h]
  · rintro h1 ⟨v2, h2⟩ h; simp [collectDevice, h1, h2, h]
  · rintro h1 ⟨v2, h2⟩ ⟨v3, h3⟩ h; simp [collectDevice, h1, h2, h3, h]
  · rintro h1 ⟨v2, h2⟩ ⟨v3, h3⟩ ⟨v4, h4⟩ h
    simp [collectDevice, h1, h2, h3, h4, h]
  · rintro h1 ⟨v2, h2⟩ ⟨v3, h3⟩ ⟨v4, h4⟩ ⟨v5, h5⟩ h
    simp [collectDevice, h1, h2, h3, h4, h5, h]
  · rintro h1 ⟨v2, h2⟩ ⟨v3, h3⟩ ⟨v4, h4⟩ ⟨v5, h5⟩ ⟨v6, h6⟩ h
    simp [collectDevice, h1, h2, h3, h4, h5, h6, h]
  · rintro h1 ⟨v2, h2⟩ ⟨v3, h3⟩ ⟨v4, h4⟩ ⟨v5, h5⟩ ⟨v6, h6⟩ ⟨v7, h7⟩ h
    simp [collectDevice, h1, h2, h3, h4, h5, h6, h7, h]
  · intro rd ts devices
    simp only [devicePass, List.map_map]
    have hid : (Prod.fst ∘ fun i => (i, (collectDevice i (ts i) (rd i)).1)) = id := rfl
    rw [hid, List.map_id]
  · intro rd ts devices g hnone hmem
    rcases List.mem_filterMap.mp hmem with ⟨p, hp, hmap⟩
    rcases List.mem_map.mp hp with ⟨j, hj, hpj⟩
    rcases Option.map_eq_some'.mp hmap with ⟨s, hs, hpair⟩
    have hfst : p.1 = i := congrArg Prod.fst hpair ▸ rfl
    have hji : j = i := by
      have := congrArg Prod.fst hpj
      simpa [hfst] using this
    rw [← hpj] at hs
    simp only [hji] at hs
    rw [hnone] at hs
    exact Option.noConfusion hs

/-- Witness for C1: each of the eight prerequisite reads, failing first
on an otherwise fully healthy device, abandons the pass with no
snapshot and exactly its own log line. -/
theorem monitor_identity_failfast_witness :
    collectDevice 0 5 { okReads with handle := .error "boom" } =
      (none, ["DeviceHandleByIndex(" ++ toString 0 ++ ") error: " ++ "boom"]) ∧
    collectDevice 0 5 { okReads with minorNumber := .error "boom" } =
      (none, ["MinorNumber() error: " ++ "boom"]) ∧
    collectDevice 0 5 { okReads with uuid := .error "boom" } =
      (none, ["UUID() error: " ++ "boom"]) ∧
    collectDevice 0 5 { okReads with name := .error "boom" } =
      (none, ["Name() error: " ++ "boom"]) ∧
    collectDevice 0 5 { okReads with brand := .error "boom" } =
      (none, ["Brand() error: " ++ "boom"]) ∧
    collectDevice 0 5 { okReads with persistenceMode := .error "boom" } =
      (none, ["PersistenceMode() error: " ++ "boom"]) ∧
    collectDevice 0 5 { okReads with computeMode := .error "boom" } =
      (none, ["ComputeMode() error: " ++ "boom"]) ∧
    collectDevice 0 5 { okReads with performanceState := .error "boom" } =
      (none, ["PerformanceState() error: " ++ "boom"]) :=
  ⟨(monitor_identity_failfast 0 5 { okReads with handle := .error "boom" } "boom").1 rfl,
   (monitor_identity_failfast 0 5 { okReads with minorNumber := .error "boom" } "boom").2.1
     rfl rfl,
   (monitor_identity_failfast 0 5 { okReads with uuid := .error "boom" } "boom").2.2.1
     rfl ⟨2, rfl⟩ rfl,
   (monitor_identity_failfast 0 5 { okReads with name := .error "boom" } "boom").2.2.2.1
     rfl ⟨2, rfl⟩ ⟨"GPU-abc", rfl⟩ rfl,
   (monitor_identity_failfast 0 5 { okReads with brand := .error "boom" } "boom").2.2.2.2.1
     rfl ⟨2, rfl⟩ ⟨"GPU-abc", rfl⟩ ⟨"RTX", rfl⟩ rfl,
   (monitor_identity_failfast 0 5
       { okReads with persistenceMode := .error "boom" } "boom").2.2.2.2.2.1
     rfl ⟨2, rfl⟩ ⟨"GPU-abc", rfl⟩ ⟨"RTX", rfl⟩ ⟨5, rfl⟩ rfl,
   (monitor_identity_failfast 0 5
       { okReads with computeMode := .error "boom" } "boom").2.2.2.2.2.2.1
     rfl ⟨2, rfl⟩ ⟨"GPU-abc", rfl⟩ ⟨"RTX", rfl⟩ ⟨5, rfl⟩ ⟨1, rfl⟩ rfl,
   (monitor_identity_failfast 0 5
       { okReads with performanceState := .error "boom" } "boom").2.2.2.2.2.2.2.1
     rfl ⟨2, rfl⟩ ⟨"GPU-abc", rfl⟩ ⟨"RTX", rfl⟩ ⟨5, rfl⟩ ⟨1, rfl⟩ ⟨3, rfl⟩ rfl⟩

/-- C2: when a device pass's identity reads all succeed but its
temperature read fails, a snapshot is still emitted, its `Temperature`
field is zero, every other field carries the value determined by its
own read, and the log contains a line mentioning the temperature
failure. -/
theorem monitor_temperature_failsoft (i : Nat) (t : Int) (r : DeviceReads)
    (mn br pm cm ps : Nat) (uu nm : String) (e : String)
    (h1 : r.handle = .ok ()) (h2 : r.minorNumber = .ok mn) (h3 : r.uuid = .ok uu)
    (h4 : r.name = .ok nm) (h5 : r.brand = .ok br) (h6 : r.persistenceMode = .ok pm)
    (h7 : r.computeMode = .ok cm) (h8 : r.performanceState = .ok ps)
    (ht : r.temperature = .error e) :
    ∃ g logs, collectDevice i t r = (some g, logs) ∧
      g.Temperature = 0 ∧
      g.TimeStamp = t ∧ g.MinorNumber = mn ∧ g.UUID = uu ∧ g.Name = nm ∧
      g.Brand = br ∧ g.PersistenceMode = pm ∧ g.ComputeMode = cm ∧
      g.PerformanceState = ps ∧
      g.AvgGPUUtilization = orZero r.avgGPUUtilization ∧
      g.AvgPowerUsage = orZero r.avgPowerUsage ∧
      g.TotalMemory = (orZeroPair r.memoryInfo).1 ∧
      g.UsedMemory = (orZeroPair r.memoryInfo).2 ∧
      g.GrClock = orZero r.grClock ∧ g.SMClock = orZero r.smClock ∧
      g.MemClock = orZero r.memClock ∧ g.GrMaxClock = orZero r.grMaxClock ∧
      g.SMMaxClock = orZero r.smMaxClock ∧ g.MemMaxClock = orZero r.memMaxClock ∧
      g.PcieTxThroughput = orZero r.pcieTxThroughput ∧
      g.PcieRxThroughput = orZero r.pcieRxThroughput ∧
      g.PcieGeneration = orZero r.pcieGeneration ∧
      g.PcieWidth = orZero r.pcieWidth ∧
      g.PcieMaxGeneration = orZero r.pcieMaxGeneration ∧
      g.PcieMaxWidth = orZero r.pcieMaxWidth ∧
      g.FanSpeed = orZero r.fanSpeed ∧
      ("Temperature() error: " ++ e) ∈ logs := by
  refine ⟨_, _, collectDevice_identity_ok i t r mn br pm cm ps uu nm h1 h2 h3 h4 h5 h6 h7 h8,
    ?_, rfl, rfl, rfl, rfl, rfl, rfl, rfl, rfl, rfl, rfl, rfl, rfl, rfl, rfl, rfl, rfl,
    rfl, rfl, rfl, rfl, rfl, rfl, rfl, rfl, rfl, ?_⟩
  · simp [orZero, ht]
  · simp [dynLogs, logOf, ht]

/-- Witness for C2: the concrete pass whose temperature read fails still
emits a snapshot, with zero temperature and every other field intact. -/
theorem monitor_temperature_failsoft_witness :
    ∃ g logs, collectDevice 0 5 tempFailReads = (some g, logs) ∧
      g.Temperature = 0 ∧
      g.TimeStamp = 5 ∧ g.MinorNumber = 2 ∧ g.UUID = "GPU-abc" ∧ g.Name = "RTX" ∧
      g.Brand = 5 ∧ g.PersistenceMode = 1 ∧ g.ComputeMode = 3 ∧
      g.PerformanceState = 0 ∧
      g.AvgGPUUtilization = orZero tempFailReads.avgGPUUtilization ∧
      g.AvgPowerUsage = orZero tempFailReads.avgPowerUsage ∧
      g.TotalMemory = (orZeroPair tempFailReads.memoryInfo).1 ∧
      g.UsedMemory = (orZeroPair tempFailReads.memoryInfo).2 ∧
      g.GrClock = orZero tempFailReads.grClock ∧
      g.SMClock = orZero tempFailReads.smClock ∧
      g.MemClock = orZero tempFailReads.memClock ∧
      g.GrMaxClock = orZero tempFailReads.grMaxClock ∧
      g.SMMaxClock = orZero tempFailReads.smMaxClock ∧
      g.MemMaxClock = orZero tempFailReads.memMaxClock ∧
      g.PcieTxThroughput = orZero tempFailReads.pcieTxThroughput ∧
      g.PcieRxThroughput = orZero tempFailReads.pcieRxThroughput ∧
      g.PcieGeneration = orZero tempFailReads.pcieGeneration ∧
      g.PcieWidth = orZero tempFailReads.pcieWidth ∧
      g.PcieMaxGeneration = orZero tempFailReads.pcieMaxGeneration ∧
      g.PcieMaxWidth = orZero tempFailReads.pcieMaxWidth ∧
      g.FanSpeed = orZero tempFailReads.fanSpeed ∧
      ("Temperature() error: " ++ "boom") ∈ logs :=
  monitor_temperature_failsoft 0 5 tempFailReads 2 5 1 3 0 "GPU-abc" "RTX" "boom"
    rfl rfl rfl rfl rfl rfl rfl rfl rfl

/-- C3: once the identity reads of a pass succeed, every dynamic field
of the emitted snapshot is a function of that field's own read alone —
its read value on success, zero on failure, with one log line per
failed read — so a failure of any one dynamic read zeroes only the
field(s) that read populates, leaves every other field as determined by
its own read, and collection continues through all remaining fields.
(The single `MemoryInfo` call populates the `TotalMemory`/`UsedMemory`
pair, so its failure zeroes that one metric's two components.) -/
theorem monitor_dynamic_isolation (i : Nat) (t : Int) (r : DeviceReads)
    (mn br pm cm ps : Nat) (uu nm : String)
    (h1 : r.handle = .ok ()) (h2 : r.minorNumber = .ok mn) (h3 : r.uuid = .ok uu)
    (h4 : r.name = .ok nm) (h5 : r.brand = .ok br) (h6 : r.persistenceMode = .ok pm)
    (h7 : r.computeMode = .ok cm) (h8 : r.performanceState = .ok ps) :
    (collectDevice i t r =
      (some
        { TimeStamp := t
          MinorNumber := mn
          UUID := uu
          Name := nm
          Brand := br
          PersistenceMode := pm
          ComputeMode := cm
          PerformanceState := ps
          AvgGPUUtilization := orZero r.avgGPUUtilization
          AvgPowerUsage := orZero r.avgPowerUsage
          TotalMemory := (orZeroPair r.memoryInfo).1
          UsedMemory := (orZeroPair r.memoryInfo).2
          GrClock := orZero r.grClock
          SMClock := orZero r.smClock
          MemClock := orZero r.memClock
          GrMaxClock := orZero r.grMaxClock
          SMMaxClock := orZero r.smMaxClock
          MemMaxClock := orZero r.memMaxClock
          PcieTxThroughput := orZero r.pcieTxThroughput
          PcieRxThroughput := orZero r.pcieRxThroughput
          PcieGeneration := orZero r.pcieGeneration
          PcieWidth := orZero r.pcieWidth
          PcieMaxGeneration := orZero r.pcieMaxGeneration
          PcieMaxWidth := orZero r.pcieMaxWidth
          Temperature := orZero r.temperature
          FanSpeed := orZero r.fanSpeed },
       dynLogs r)) ∧
    (∀ v : Nat, orZero (.ok v) = v) ∧
    (∀ e : String, orZero (.error e) = 0) ∧
    (∀ e : String, orZeroPair (.error e) = (0, 0)) ∧
    (∀ (e m : String), logOf (Except.error e : Except String Nat) m = [m ++ e]) :=
  ⟨collectDevice_identity_ok i t r mn br pm cm ps uu nm h1 h2 h3 h4 h5 h6 h7 h8,
   fun _ => rfl, fun _ => rfl, fun _ => rfl, fun _ _ => rfl⟩

/-- Witness for C3: on the concrete pass whose graphics-clock read
fails, only `GrClock` is zeroed; the fan-speed and memory fields keep
their own read values and the neighbouring `SMClock` is untouched. -/
theorem monitor_dynamic_isolation_witness :
    (collectDevice 0 5 grFailReads).1.map GPUSnapshot.GrClock = some 0 ∧
    (collectDevice 0 5 grFailReads).1.map GPUSnapshot.SMClock = some 1480 ∧
    (collectDevice 0 5 grFailReads).1.map GPUSnapshot.TotalMemory = some 8192 ∧
    (collectDevice 0 5 grFailReads).1.map GPUSnapshot.FanSpeed = some 40 := by
  have h := monitor_dynamic_isolation 0 5 grFailReads 2 5 1 3 0 "GPU-abc" "RTX"
    rfl rfl rfl rfl rfl rfl rfl rfl
  rw [h.1]
  exact ⟨rfl, rfl, rfl, rfl⟩

/-- Every tick record the loop produces carries the complete pass over
the fixed device list: the pass always runs to its end before the
cancellation check. -/
theorem runLoop_attempts (rd : Nat → Nat → DeviceReads) (ts : Nat → Nat → Int)
    (obs : Nat → Bool) (devices : List Nat) :
    ∀ (fuel t0 : Nat), ∀ tr ∈ (runLoop rd ts obs devices fuel t0).1,
      tr.attempts = devicePass (rd tr.tick) (ts tr.tick) devices := by
  intro fuel
  induction fuel with
  | zero => intro t0 tr htr; simp [runLoop] at htr
  | succ n ih =>
    intro t0 tr htr
    by_cases hob : obs t0
    · simp [runLoop, hob] at htr
      subst htr
      rfl
    · simp [runLoop, hob] at htr
      rcases htr with h | h
      · subst h; rfl
      · exact ih (t0 + 1) tr h

/-- Once cancellation is observable at tick `t`, no tick record beyond
`t` is produced when the loop starts at or before `t`. -/
theorem runLoop_tick_le (rd : Nat → Nat → DeviceReads) (ts : Nat → Nat → Int)
    (obs : Nat → Bool) (devices : List Nat) (t : Nat) (hobs : obs t = true) :
    ∀ (fuel t0 : Nat), t0 ≤ t → ∀ tr ∈ (runLoop rd ts obs devices fuel t0).1,
      tr.tick ≤ t := by
  intro fuel
  induction fuel with
  | zero => intro t0 h0 tr htr; simp [runLoop] at htr
  | succ n ih =>
    intro t0 h0 tr htr
    by_cases hob : obs t0
    · simp [runLoop, hob] at htr
      subst htr
      exact h0
    · simp [runLoop, hob] at htr
      rcases htr with h | h
      · subst h; exact h0
      · refine ih (t0 + 1) ?_ tr h
        rcases Nat.lt_or_ge t0 t with hlt | hge
        · exact hlt
        · exfalso
          have : t0 = t := Nat.le_antisymm h0 hge
          rw [this] at hob
          exact hob hobs

/-- Every emitted record's tick is the tick of some tick record of the
run. -/
theorem emitted_tick_mem (res : RunResult) :
    ∀ p ∈ emitted res, ∃ tr ∈ res.ticks, p.1 = tr.tick := by
  intro p hp
  rcases List.mem_flatten.mp hp with ⟨l, hl, hpl⟩
  rcases List.mem_map.mp hl with ⟨tr, htr, hltr⟩
  refine ⟨tr, htr, ?_⟩
  rw [← hltr] at hpl
  rcases List.mem_filterMap.mp hpl with ⟨q, _, hq⟩
  cases hq2 : q.2 with
  | none => rw [hq2] at hq; exact Option.noConfusion hq
  | some g =>
    rw [hq2] at hq
    have := Option.some.inj hq
    rw [← this]

/-- Shape of a run's tick list: empty (startup never reached the loop)
or exactly what the loop produces from tick 0 over the selected
devices. -/
theorem monitorGPU_ticks_shape (w : World) :
    (monitorGPU w).ticks = [] ∨
    (monitorGPU w).ticks =
      (runLoop w.reads w.tsOf w.obs (monitorGPU w).selected w.fuel 0).1 := by
  rcases hse : w.sessionErr with _ | e0
  · rcases hdv : w.driverVersion with e1 | v
    · left; simp [monitorGPU, hse, hdv]
    · rcases hsel : selectDevices w.devicesStr w.deviceCount with e2 | devices
      · left; simp [monitorGPU, hse, hdv, hsel]
      · rcases hinit : initDevices w.initReads devices with e3 | u
        · left; simp [monitorGPU, hse, hdv, hsel, hinit]
        · right; simp [monitorGPU, hse, hdv, hsel, hinit]
  · left; simp [monitorGPU, hse]

/-- C4: cancellation is cooperative and checked only at the post-pass
wait point: every tick record of a run carries its complete device pass
(a pass is never cut short), and if cancellation is observable at tick
`t` then no tick after `t` starts, so no snapshot is emitted with a
tick beyond `t`. -/
theorem monitor_cancellation_postpass (w : World) (t : Nat) (hobs : w.obs t = true) :
    (∀ tr ∈ (monitorGPU w).ticks, tr.tick ≤ t) ∧
    (∀ tr ∈ (monitorGPU w).ticks,
      tr.attempts = devicePass (w.reads tr.tick) (w.tsOf tr.tick) (monitorGPU w).selected) ∧
    (∀ p ∈ emitted (monitorGPU w), p.1 ≤ t) := by
  have hticks : ∀ tr ∈ (monitorGPU w).ticks, tr.tick ≤ t ∧
      tr.attempts = devicePass (w.reads tr.tick) (w.tsOf tr.tick) (monitorGPU w).selected := by
    intro tr htr
    rcases monitorGPU_ticks_shape w with hsh | hsh
    · rw [hsh] at htr; simp at htr
    · rw [hsh] at htr
      exact ⟨runLoop_tick_le w.reads w.tsOf w.obs (monitorGPU w).selected t hobs w.fuel 0
          (Nat.zero_le t) tr htr,
        runLoop_attempts w.reads w.tsOf w.obs (monitorGPU w).selected w.fuel 0 tr htr⟩
  refine ⟨fun tr htr => (hticks tr htr).1, fun tr htr => (hticks tr htr).2, ?_⟩
  intro p hp
  rcases emitted_tick_mem (monitorGPU w) p hp with ⟨tr, htr, hpt⟩
  rw [hpt]
  exact (hticks tr htr).1

/-- Witness for C4: in the concrete run cancelled at the select of tick
1, every tick record and every emitted snapshot has tick at most 1. -/
theorem monitor_cancellation_postpass_witness :
    (∀ tr ∈ (monitorGPU okWorld).ticks, tr.tick ≤ 1) ∧
    (∀ p ∈ emitted (monitorGPU okWorld), p.1 ≤ 1) :=
  ⟨(monitor_cancellation_postpass okWorld 1 rfl).1,
   (monitor_cancellation_postpass okWorld 1 rfl).2.2⟩

/-- C9: the monitored device set is fixed after initialization: every
tick's pass attempts exactly the selected indices, in the same fixed
order, so any two ticks of a run iterate identical index sequences. -/
theorem monitor_fixed_device_order (w : World) :
    (∀ tr ∈ (monitorGPU w).ticks, tr.attempts.map Prod.fst = (monitorGPU w).selected) ∧
    (∀ tr1 ∈ (monitorGPU w).ticks, ∀ tr2 ∈ (monitorGPU w).ticks,
      tr1.attempts.map Prod.fst = tr2.attempts.map Prod.fst) := by
  have h : ∀ tr ∈ (monitorGPU w).ticks,
      tr.attempts.map Prod.fst = (monitorGPU w).selected := by
    intro tr htr
    rcases monitorGPU_ticks_shape w with hsh | hsh
    · rw [hsh] at htr; simp at htr
    · rw [hsh] at htr
      have ha := runLoop_attempts w.reads w.tsOf w.obs (monitorGPU w).selected w.fuel 0 tr htr
      rw [ha]
      simp only [devicePass, List.map_map]
      have hid :
          (Prod.fst ∘ fun i =>
            (i, (collectDevice i (w.tsOf tr.tick i) (w.reads tr.tick i)).1)) = id := rfl
      rw [hid, List.map_id]
  exact ⟨h, fun tr1 h1 tr2 h2 => (h tr1 h1).trans (h tr2 h2).symm⟩

/-- Witness for C9: in the concrete two-tick run, the first tick's pass
attempts exactly the selected device list. -/
theorem monitor_fixed_device_order_witness :
    ({ tick := 0, attempts := [(0, some okSnapshot)] } : TickRecord).attempts.map Prod.fst =
      (monitorGPU okWorld).selected :=
  (monitor_fixed_device_order okWorld).1 _ (by decide)

/-- If any selected device's initialization fails, sequential
initialization of the whole selection fails. -/
theorem initDevices_error (ir : Nat → InitReads) :
    ∀ l : List Nat, (∃ i ∈ l, ∃ e, initDevice i (ir i) = .error e) →
      ∃ e2, initDevices ir l = .error e2 := by
  intro l
  induction l with
  | nil => rintro ⟨i, hi, _⟩; simp at hi
  | cons a as ih =>
    rintro ⟨i, hi, e, he⟩
    cases hcase : initDevice a (ir a) with
    | error e3 => exact ⟨e3, by simp [initDevices, hcase]⟩
    | ok u =>
      rcases List.mem_cons.mp hi with h | h
      · subst h
        rw [hcase] at he
        exact Except.noConfusion he
      · rcases ih ⟨i, h, e, he⟩ with ⟨e4, h4⟩
        exact ⟨e4, by simp [initDevices, hcase, h4]⟩

/-- C5: if, for any one selected device, handle resolution or either
configuration write (persistence mode, exclusive-process compute mode)
fails during initialization, the run ends fatally before the sampling
loop starts: no tick runs and no snapshot is emitted for any device. -/
theorem monitor_init_failure_fatal (w : World) (devices : List Nat)
    (hse : w.sessionErr = none) (hdv : ∃ v, w.driverVersion = .ok v)
    (hsel : selectDevices w.devicesStr w.deviceCount = .ok devices)
    (hfail : ∃ i ∈ devices, ∃ e, initDevice i (w.initReads i) = .error e) :
    (∃ m, (monitorGPU w).outcome = .fatalStop m) ∧
    (monitorGPU w).ticks = [] ∧
    emitted (monitorGPU w) = [] ∧
    (monitorGPU w).configured = false := by
  rcases hdv with ⟨v, hdv⟩
  rcases initDevices_error w.initReads devices hfail with ⟨e2, he2⟩
  refine ⟨⟨e2, ?_⟩, ?_, ?_, ?_⟩ <;>
    simp [monitorGPU, emitted, hse, hdv, hsel, he2]

/-- Witness for C5: with the concrete world whose compute-mode write
fails on its single selected device, the run stops fatally with no
ticks and no emitted snapshots. -/
theorem monitor_init_failure_fatal_witness :
    (∃ m, (monitorGPU initFailWorld).outcome = .fatalStop m) ∧
    (monitorGPU initFailWorld).ticks = [] ∧
    emitted (monitorGPU initFailWorld) = [] ∧
    (monitorGPU initFailWorld).configured = false :=
  monitor_init_failure_fatal initFailWorld [0] rfl ⟨"418.67", rfl⟩ rfl
    ⟨0, by decide, "SetComputeMode() error: " ++ "boom", rfl⟩

/-- C7: with an empty configured device list, the selector resolves
exactly the indices `0 .. count-1`, in increasing order, from the
provider's reported device count; and a failing device-count query is
fatal, with no tick run and nothing emitted. -/
theorem monitor_selector_empty (w : World) (n : Nat) (e : String)
    (hemp : w.devicesStr = []) :
    (w.deviceCount = .ok n →
      selectDevices w.devicesStr w.deviceCount = .ok (List.range n) ∧
      (∀ k, k ∈ List.range n ↔ k < n) ∧
      List.Sorted (· < ·) (List.range n)) ∧
    (w.deviceCount = .error e → w.sessionErr = none → (∃ v, w.driverVersion = .ok v) →
      (∃ m, (monitorGPU w).outcome = .fatalStop m) ∧
      (monitorGPU w).ticks = [] ∧
      emitted (monitorGPU w) = []) := by
  constructor
  · intro hc
    refine ⟨by simp [selectDevices, hemp, hc], fun k => List.mem_range, ?_⟩
    exact List.sorted_lt_range n
  · rintro hc hse ⟨v, hdv⟩
    have hsel : selectDevices w.devicesStr w.deviceCount =
        .error ("Error counting nvidia devices: " ++ e) := by
      simp [selectDevices, hemp, hc]
    refine ⟨⟨"Error counting nvidia devices: " ++ e, ?_⟩, ?_, ?_⟩ <;>
      simp [monitorGPU, emitted, hse, hdv, hsel]

/-- Witness for C7: the concrete all-defaults world resolves `[0]` from
device count 1, and the concrete world whose count query fails stops
fatally with nothing emitted. -/
theorem monitor_selector_empty_witness :
    selectDevices okWorld.devicesStr okWorld.deviceCount = .ok (List.range 1) ∧
    (∃ m, (monitorGPU countFailWorld).outcome = .fatalStop m) ∧
    (monitorGPU countFailWorld).ticks = [] ∧
    emitted (monitorGPU countFailWorld) = [] :=
  ⟨((monitor_selector_empty okWorld 1 "x" rfl).1 rfl).1,
   ((monitor_selector_empty countFailWorld 1 "boom" rfl).2 rfl rfl ⟨"418.67", rfl⟩).1,
   ((monitor_selector_empty countFailWorld 1 "boom" rfl).2 rfl rfl ⟨"418.67", rfl⟩).2.1,
   ((monitor_selector_empty countFailWorld 1 "boom" rfl).2 rfl rfl ⟨"418.67", rfl⟩).2.2⟩

/-- When every entry parses, the explicit-list selector succeeds with
the parsed values in the order given. -/
theorem parseDevices_ok :
    ∀ l : List String, (∀ s ∈ l, ∃ n, parseUint64 s = .ok n) →
      parseDevices l = .ok (l.map parseVal) := by
  intro l
  induction l with
  | nil => intro _; rfl
  | cons a as ih =>
    intro h
    rcases h a (List.mem_cons_self a as) with ⟨n, hn⟩
    have has : parseDevices as = .ok (as.map parseVal) :=
      ih fun s hs => h s (List.mem_cons_of_mem a hs)
    simp [parseDevices, hn, has, parseVal]

/-- When some entry fails to parse, the explicit-list selector aborts
with an error. -/
theorem parseDevices_error :
    ∀ l : List String, (∃ s ∈ l, ∃ e, parseUint64 s = .error e) →
      ∃ e2, parseDevices l = .error e2 := by
  intro l
  induction l with
  | nil => rintro ⟨s, hs, _⟩; simp at hs
  | cons a as ih =>
    rintro ⟨s, hs, e, he⟩
    cases hcase : parseUint64 a with
    | error e3 => exact ⟨"Invalid devices entry " ++ a ++ ": " ++ e3,
        by simp [parseDevices, hcase]⟩
    | ok n =>
      rcases List.mem_cons.mp hs with h | h
      · subst h
        rw [hcase] at he
        exact Except.noConfusion he
      · rcases ih ⟨s, h, e, he⟩ with ⟨e4, h4⟩
        exact ⟨e4, by simp [parseDevices, hcase, h4]⟩

/-- C8: with a non-empty explicit device list, the selector resolves
exactly the entries parsed as non-negative integers, in the order
given; a successfully parsed entry contributes its parsed value; and
any unparsable entry makes selection fail and the run stop fatally with
no partial selection, no tick and nothing emitted. -/
theorem monitor_selector_explicit (w : World) (l : List String)
    (hne : l ≠ []) (hl : w.devicesStr = l) :
    ((∀ s ∈ l, ∃ n, parseUint64 s = .ok n) →
      selectDevices w.devicesStr w.deviceCount = .ok (l.map parseVal)) ∧
    (∀ s n, parseUint64 s = .ok n → parseVal s = n) ∧
    ((∃ s ∈ l, ∃ e, parseUint64 s = .error e) →
      (∃ e2, selectDevices w.devicesStr w.deviceCount = .error e2) ∧
      (w.sessionErr = none → (∃ v, w.driverVersion = .ok v) →
        (∃ m, (monitorGPU w).outcome = .fatalStop m) ∧
        (monitorGPU w).ticks = [] ∧
        emitted (monitorGPU w) = [] ∧
        (monitorGPU w).selected = [])) := by
  have hne2 : l.isEmpty = false := by
    cases l with
    | nil => exact absurd rfl hne
    | cons a as => rfl
  refine ⟨?_, ?_, ?_⟩
  · intro h
    rw [hl]
    simp only [selectDevices, hne2, Bool.false_eq_true, if_false]
    exact parseDevices_ok l h
  · intro s n hn
    simp [parseVal, hn]
  · intro hbad
    rcases parseDevices_error l hbad with ⟨e2, he2⟩
    have hsel : selectDevices w.devicesStr w.deviceCount = .error e2 := by
      rw [hl]
      simp only [selectDevices, hne2, Bool.false_eq_true, if_false]
      exact he2
    refine ⟨⟨e2, hsel⟩, ?_⟩
    rintro hse ⟨v, hdv⟩
    refine ⟨⟨e2, ?_⟩, ?_, ?_, ?_⟩ <;>
      simp [monitorGPU, emitted, hse, hdv, hsel]

/-- Witness for C8: the list `["0", "2"]` resolves to `[0, 2]`, and
the concrete world configured with `["0", "abc"]` stops fatally with no
selection, no tick and nothing emitted. -/
theorem monitor_selector_explicit_witness :
    selectDevices goodListWorld.devicesStr goodListWorld.deviceCount = .ok [0, 2] ∧
    (∃ e2, selectDevices badListWorld.devicesStr badListWorld.deviceCount = .error e2) ∧
    (∃ m, (monitorGPU badListWorld).outcome = .fatalStop m) ∧
    (monitorGPU badListWorld).ticks = [] ∧
    emitted (monitorGPU badListWorld) = [] ∧
    (monitorGPU badListWorld).selected = [] := by
  have hgood := (monitor_selector_explicit goodListWorld ["0", "2"] (by decide) rfl).1
    (by intro s hs
        rcases List.mem_cons.mp hs with h | h
        · exact ⟨0, by subst h; rfl⟩
        · rcases List.mem_cons.mp h with h2 | h2
          · exact ⟨2, by subst h2; rfl⟩
          · simp at h2)
  have hbad := (monitor_selector_explicit badListWorld ["0", "abc"] (by decide) rfl).2.2
    ⟨"abc", by decide, "invalid syntax", rfl⟩
  have hbad2 := hbad.2 rfl ⟨"418.67", rfl⟩
  exact ⟨hgood.trans rfl, hbad.1, hbad2.1, hbad2.2.1, hbad2.2.2.1, hbad2.2.2.2⟩

/-- C10: if the provider session comes up but the driver-version query
fails, `monitorGPU` returns immediately and normally (no panic): no
device is selected or configured, no tick runs, nothing is emitted, and
the deferred provider shutdown still runs. -/
theorem monitor_driver_failure_early_exit (w : World) (e : String)
    (hse : w.sessionErr = none) (hdv : w.driverVersion = .error e) :
    monitorGPU w =
      { outcome := .earlyExit
        ticks := []
        selected := []
        configured := false
        shutdownCalled := true } ∧
    emitted (monitorGPU w) = [] := by
  constructor
  · simp [monitorGPU, hse, hdv]
  · simp [monitorGPU, emitted, hse, hdv]

/-- Witness for C10: the concrete world whose driver-version query
fails returns early with shutdown run and nothing selected, configured
or emitted. -/
theorem monitor_driver_failure_early_exit_witness :
    monitorGPU driverFailWorld =
      { outcome := .earlyExit
        ticks := []
        selected := []
        configured := false
        shutdownCalled := true } ∧
    emitted (monitorGPU driverFailWorld) = [] :=
  monitor_driver_failure_early_exit driverFailWorld "boom" rfl rfl

/-- Counterexample to C6 as stated: with a device pass that takes 5
seconds, the averaging window of tick 1 (which ends at that tick's
timestamp and spans one tick period) does not begin where tick 0's
window ends — the windows are separated by a 5-second gap, so
consecutive windows are not contiguous. -/
theorem monitor_windows_not_contiguous_cex :
    tickStamp 0 (fun _ => 5) 1 - (gpuPeriod : Int) ≠ tickStamp 0 (fun _ => 5) 0 := by
  decide

/-- C6 (amended): consecutive tick timestamps are strictly increasing
and separated by exactly the tick period plus the duration of the
intervening device pass (so by the tick period itself only up to that
pass time); the one-period averaging windows ending at consecutive
timestamps never overlap, and they are contiguous exactly when the pass
takes no time. -/
theorem monitor_tick_timing (s0 : Int) (d : Nat → Nat) (t : Nat) :
    tickStamp s0 d (t + 1) = tickStamp s0 d t + (d t : Int) + (gpuPeriod : Int) ∧
    tickStamp s0 d t < tickStamp s0 d (t + 1) ∧
    (gpuPeriod : Int) ≤ tickStamp s0 d (t + 1) - tickStamp s0 d t ∧
    tickStamp s0 d t ≤ tickStamp s0 d (t + 1) - (gpuPeriod : Int) ∧
    (tickStamp s0 d (t + 1) - (gpuPeriod : Int) = tickStamp s0 d t ↔ d t = 0) := by
  refine ⟨rfl, ?_, ?_, ?_, ?_⟩ <;>
    simp [tickStamp, gpuPeriod] <;> omega

end EmrysMiner
